import Mathlib

/-!
Shallow embedding of the WhatsApp instance-lifecycle and reconciliation core of
the tsurugroups-api repository (apps/whatsapp/{models,services,views}.py),
together with theorems checking the natural-language specification against it.

Modelling conventions:
* Python dicts coming from the gateway are structures whose fields are `Option`
  values; `d.get(key)` is the field itself, `d.get(key, dflt)` is `(field).getD dflt`,
  and `key in d` is `(field).isSome`.
* Django rows are structures; a table whose `unique_together` natural key is `k`
  is a map `k → Option Row` (`update_or_create` is an upsert at that key).
* `requests` calls are modelled by their observable response: `none` stands for a
  raised `RequestException`, `some r` for a response with status code, text and
  parsed JSON body.
* `timezone.now()` and the random fresh `system_name` suffix are explicit
  parameters.
-/

set_option autoImplicit false

namespace Tsuru

/-- Whether the character list `s` starts with the pattern `p`. -/
def pyStartsWith : List Char → List Char → Bool
  | _, [] => true
  | [], _ :: _ => false
  | a :: s, b :: p => a = b && pyStartsWith s p

/-- Whether the pattern occurs anywhere in the character list. -/
def pyContainsChars (pat : List Char) : List Char → Bool
  | [] => pyStartsWith [] pat
  | c :: s => pyStartsWith (c :: s) pat || pyContainsChars pat s

/-- Python `pat in s` substring test, modelled by structural recursion so that
proofs can evaluate it. -/
def pyContains (s pat : String) : Bool :=
  pyContainsChars pat.toList s.toList

/-- Replace every (leftmost, non-overlapping) occurrence of `pat` by `repl`,
with explicit fuel to keep the recursion structural; each step consumes at
least one character, so `fuel = s.length` suffices. -/
def pyReplaceAux (pat repl : List Char) : Nat → List Char → List Char
  | 0, s => s
  | _ + 1, [] => []
  | fuel + 1, c :: s =>
    if pyStartsWith (c :: s) pat then
      repl ++ pyReplaceAux pat repl fuel (s.drop (pat.length - 1))
    else
      c :: pyReplaceAux pat repl fuel s

/-- Python `s.replace(pat, repl)` for a non-empty pattern, modelled by
structural recursion so that proofs can evaluate it. -/
def pyReplace (s pat repl : String) : String :=
  String.mk (pyReplaceAux pat.toList repl.toList s.length s.toList)

/-- Process-wide Django settings consumed by the WhatsApp app. -/
structure Settings where
  DEFAULT_GATEWAY_URL : String
  DEFAULT_UAZAPI_API_KEY : String
  deriving Repr, DecidableEq

/-- The `WhatsAppInstance` row (models.py), restricted to the fields read or
written by the embedded operations.  `whatsapp_number` and `phone_number` are
`Option String` because `sync_instance_status` assigns them from
the `owner` entry of the status payload, which is Python `None` when the key is absent. -/
structure InstanceRow where
  name : String
  system_name : String
  whatsapp_number : Option String
  gateway_url : String
  api_key : String
  status : String
  phone_number : Option String
  connection_method : String
  qr_code : String
  deriving Repr, DecidableEq

/-- `WhatsAppInstance.save` (models.py lines 121-130): generate a `system_name`
when blank and always overwrite `gateway_url` from settings.  The line that
would overwrite `api_key` from settings is commented out in the source
(models.py line 128), so `api_key` is left untouched. -/
def instance_save (cfg : Settings) (freshSystemName : String) (inst : InstanceRow) : InstanceRow :=
  let inst := if inst.system_name = "" then { inst with system_name := freshSystemName } else inst
  { inst with gateway_url := cfg.DEFAULT_GATEWAY_URL }

/-- An HTTP response as observed by the service layer: status code, body text,
and the value `response.json()` would produce (`α` is the parsed-body type). -/
structure HttpResp (α : Type) where
  status_code : Nat
  text : String
  jsonData : α
  deriving Repr, DecidableEq

/-- Result payload of a gateway-client call: either the parsed response body or
the structured error dict `{"error": ...}`. -/
inductive ConnectPayload (α : Type) where
  | data (d : α)
  | error (msg : String)
  deriving Repr, DecidableEq

/-- `WhatsAppAPIService.connect_instance` (services.py lines 45-63), modelled on
its response handling: the transport outcome is the input (`none` is a raised
`requests` exception).  Status 200 or 409 returns `(True, parsed body)`; any
other status returns `(False, {"error": "Error <code>: <text>"})`. -/
def connect_instance {α : Type} (resp : Option (HttpResp α)) : Bool × ConnectPayload α :=
  match resp with
  | some r =>
    if r.status_code = 200 ∨ r.status_code = 409 then
      (true, .data r.jsonData)
    else
      (false, .error ("Error " ++ toString r.status_code ++ ": " ++ r.text))
  | none => (false, .error "Request failed")

/-- The `instance` object inside a `/instance/status` response
(the `instance` entry of the parsed body in `sync_instance_status`). -/
structure InstanceStatusData where
  status : Option String
  qrcode : Option String
  owner : Option String
  profilePictureUrl : Option String
  deriving Repr, DecidableEq

/-- `WhatsAppInstanceManager.sync_instance_status` (services.py lines 408-440).
`success` and `instData` model the result of `get_instance_status`:
`instData = some d` iff the call succeeded and the body held an `instance` key with value `d`.
The final `instance.save()` is `instance_save cfg freshSystemName`. -/
def sync_instance_status (cfg : Settings) (freshSystemName : String)
    (success : Bool) (instData : Option InstanceStatusData)
    (inst : InstanceRow) : Bool × InstanceRow :=
  match success, instData with
  | true, some d =>
    if d.status = some "connected" ∧ inst.status = "connected" then
      (true, inst)
    else
      let inst1 :=
        if d.status = some "open" then
          { inst with
              status := "connected"
              phone_number := some (d.profilePictureUrl.getD "")
              whatsapp_number := d.owner }
        else if d.status = some "connecting" then
          { inst with status := "connecting" }
        else if d.status = some "connected" then
          { inst with
              status := "connected"
              phone_number := d.owner
              whatsapp_number := d.owner }
        else
          { inst with status := "disconnected" }
      let inst2 :=
        if d.qrcode.isSome ∧ inst1.status ≠ "connected" then
          { inst1 with qr_code := d.qrcode.getD "", status := "qr_code" }
        else
          inst1
      (true, instance_save cfg freshSystemName inst2)
  | _, _ => (false, inst)

/-- Models the acceptance behavior of the Python `datetime.fromisoformat` function (stdlib,
not repository code) far enough for the reconciliation code: a string is accepted
when it starts with a `YYYY-MM-DD` date made of digits and every remaining
character is a digit or an ISO time separator; the parsed datetime is represented
by the accepted string itself.  `none` models a raised `ValueError`. -/
def fromisoformat (s : String) : Option String :=
  match s.toList with
  | y1 :: y2 :: y3 :: y4 :: '-' :: m1 :: m2 :: '-' :: d1 :: d2 :: rest =>
    if ([y1, y2, y3, y4, m1, m2, d1, d2].all Char.isDigit
        && rest.all fun c => c.isDigit || c = 'T' || c = ' ' || c = ':' || c = '.' || c = '+' || c = '-') then
      some s
    else
      none
  | _ => none

/-- One entry of the `Participants` array of a group in the `/group/list` payload. -/
structure ParticipantData where
  JID : Option String
  LID : Option String
  DisplayName : Option String
  IsAdmin : Option Bool
  IsSuperAdmin : Option Bool
  Error : Option Nat
  PhoneNumber : Option String
  deriving Repr, DecidableEq

/-- One group entry of the `/group/list` payload consumed by `sync_groups`. -/
structure GroupData where
  JID : Option String
  Name : Option String
  Topic : Option String
  OwnerJID : Option String
  OwnerIsAdmin : Option Bool
  Participants : Option (List ParticipantData)
  IsLocked : Option Bool
  IsAnnounce : Option Bool
  IsEphemeral : Option Bool
  DisappearingTimer : Option Nat
  IsJoinApprovalRequired : Option Bool
  GroupCreated : Option String
  CreatorCountryCode : Option String
  AnnounceVersionID : Option String
  ParticipantVersionID : Option String
  MemberAddMode : Option String
  deriving Repr, DecidableEq

/-- The `WhatsAppGroup` row (models.py lines 133-189), keyed externally by
`(whatsapp_instance, group_id)`; timestamps are abstract `Nat` ticks. -/
structure GroupRow where
  name : String
  description : String
  participant_count : Nat
  is_admin : Bool
  owner_jid : String
  owner_phone_number : String
  is_locked : Bool
  is_announce : Bool
  is_ephemeral : Bool
  disappearing_timer : Nat
  is_join_approval_required : Bool
  group_created : Option String
  creator_country_code : String
  announce_version_id : String
  participant_version_id : String
  member_add_mode : String
  last_synced_at : Option Nat
  invite_link : String
  is_active : Bool
  deriving Repr, DecidableEq

/-- The `WhatsAppGroupParticipant` row (models.py lines 195-229), keyed
externally by `(group, jid)`. -/
structure ParticipantRow where
  phone_number : String
  lid : String
  display_name : String
  is_admin : Bool
  is_super_admin : Bool
  error_code : Nat
  is_active : Bool
  deriving Repr, DecidableEq

/-- A freshly created `WhatsAppGroup` row before `update_or_create` applies the
`defaults` dict: Django model-field defaults. -/
def freshGroupRow : GroupRow :=
  { name := ""
    description := ""
    participant_count := 0
    is_admin := false
    owner_jid := ""
    owner_phone_number := ""
    is_locked := false
    is_announce := false
    is_ephemeral := false
    disappearing_timer := 0
    is_join_approval_required := false
    group_created := none
    creator_country_code := ""
    announce_version_id := ""
    participant_version_id := ""
    member_add_mode := "all_member_add"
    last_synced_at := none
    invite_link := ""
    is_active := true }

/-- The admin derivation of `sync_groups` (services.py lines 455-467):
`OwnerIsAdmin`, else scan `Participants` for an entry whose `JID` equals the
(defaulted) `OwnerJID` and which is flagged `IsAdmin` or `IsSuperAdmin`. -/
def derive_is_admin (g : GroupData) : Bool :=
  let is_admin := g.OwnerIsAdmin.getD false
  if is_admin then
    is_admin
  else
    let owner_jid := g.OwnerJID.getD ""
    (g.Participants.getD []).any fun p =>
      p.JID == some owner_jid && (p.IsAdmin.getD false || p.IsSuperAdmin.getD false)

/-- The defensive `GroupCreated` parse of `sync_groups` (services.py lines
468-476): absent or falsy value yields `None`; otherwise `fromisoformat` on the
`Z`-normalized string, with a parse failure (caught `ValueError`) yielding `None`. -/
def group_created_of (g : GroupData) : Option String :=
  match g.GroupCreated with
  | some s => if s ≠ "" then fromisoformat (pyReplace s "Z" "+00:00") else none
  | none => none

/-- Owner phone extraction of `sync_groups` (services.py lines 478-482). -/
def owner_phone_of (g : GroupData) : String :=
  let owner_jid := g.OwnerJID.getD ""
  if owner_jid ≠ "" ∧ pyContains owner_jid "@s.whatsapp.net" = true then
    pyReplace owner_jid "@s.whatsapp.net" ""
  else
    ""

/-- The `defaults` dict of the group `update_or_create` (services.py lines
484-506) applied to an existing (or fresh) row: every listed field is
overwritten; `invite_link` and `is_active` are not in `defaults` and persist. -/
def applyGroupDefaults (now : Nat) (g : GroupData) (r : GroupRow) : GroupRow :=
  { name := g.Name.getD ""
    description := g.Topic.getD ""
    participant_count := (g.Participants.getD []).length
    is_admin := derive_is_admin g
    owner_jid := g.OwnerJID.getD ""
    owner_phone_number := owner_phone_of g
    is_locked := g.IsLocked.getD false
    is_announce := g.IsAnnounce.getD false
    is_ephemeral := g.IsEphemeral.getD false
    disappearing_timer := g.DisappearingTimer.getD 0
    is_join_approval_required := g.IsJoinApprovalRequired.getD false
    group_created := group_created_of g
    creator_country_code := g.CreatorCountryCode.getD ""
    announce_version_id := g.AnnounceVersionID.getD ""
    participant_version_id := g.ParticipantVersionID.getD ""
    member_add_mode := g.MemberAddMode.getD "all_member_add"
    last_synced_at := some now
    invite_link := r.invite_link
    is_active := r.is_active }

/-- Participant phone extraction of `sync_groups` (services.py lines 520-525). -/
def participant_phone_of (p : ParticipantData) (participant_jid : String) : String :=
  if pyContains participant_jid "@s.whatsapp.net" = true then
    pyReplace participant_jid "@s.whatsapp.net" ""
  else
    match p.PhoneNumber with
    | some pn => if pn ≠ "" then pyReplace pn "@s.whatsapp.net" "" else ""
    | none => ""

/-- The `defaults` dict of the participant `update_or_create` (services.py lines
527-539); every `ParticipantRow` field is in `defaults`, so the old row value is
irrelevant. -/
def participantRowOf (p : ParticipantData) (participant_jid : String) : ParticipantRow :=
  { phone_number := participant_phone_of p participant_jid
    lid := p.LID.getD ""
    display_name := p.DisplayName.getD ""
    is_admin := p.IsAdmin.getD false
    is_super_admin := p.IsSuperAdmin.getD false
    error_code := p.Error.getD 0
    is_active := true }

/-- The local mirror tables touched by `sync_groups`, for one fixed
`WhatsAppInstance`: groups keyed by `group_id` (`unique_together
(whatsapp_instance, group_id)`), participants keyed by `(group_id, jid)`
(`unique_together (group, jid)`, with the group foreign key identified by its
natural key). -/
@[ext]
structure MirrorDB where
  groups : String → Option GroupRow
  participants : String × String → Option ParticipantRow

/-- The group-table transformation performed by one `update_or_create` at a key
whose old value is `old` (services.py lines 484-506). -/
def groupMod (now : Nat) (g : GroupData) (old : Option GroupRow) : GroupRow :=
  applyGroupDefaults now g (old.getD freshGroupRow)

/-- One iteration of the participant loop of `sync_groups` (services.py lines
513-539): entries with a falsy `JID` are skipped, otherwise upsert at
`(group key, jid)`. -/
def syncParticipantWrite (gid : String)
    (pm : String × String → Option ParticipantRow) (p : ParticipantData) :
    String × String → Option ParticipantRow :=
  let participant_jid := p.JID.getD ""
  if participant_jid = "" then
    pm
  else
    fun k => if k = (gid, participant_jid) then some (participantRowOf p participant_jid) else pm k

/-- Processing of a single group entry by `sync_groups` (services.py lines
454-545): upsert the group row, then upsert each participant.  (The stale-
participant deactivation is commented out in the source, line 543.) -/
def syncGroupEntry (now : Nat) (db : MirrorDB) (g : GroupData) : MirrorDB :=
  let gid := g.JID.getD ""
  { groups := fun j => if j = gid then some (groupMod now g (db.groups gid)) else db.groups j
    participants := (g.Participants.getD []).foldl (syncParticipantWrite gid) db.participants }

/-- The value of `WhatsAppAPIService.get_groups` as tested by `sync_groups`:
either a Python list of group dicts, or a non-list error payload
(`isinstance(data, list)` fails). -/
inductive GroupsResponse where
  | list (groups : List GroupData)
  | errorPayload (msg : String)
  deriving Repr, DecidableEq

/-- `WhatsAppInstanceManager.sync_groups` (services.py lines 443-549): on a list
response, process each entry and count it; otherwise return 0 with the mirror
untouched. -/
def sync_groups (resp : GroupsResponse) (now : Nat) (db : MirrorDB) : Nat × MirrorDB :=
  match resp with
  | .list gs => gs.foldl (fun acc g => (acc.1 + 1, syncGroupEntry now acc.2 g)) (0, db)
  | .errorPayload _ => (0, db)

/-- One entry of the `/contacts` payload consumed by `sync_contacts`. -/
structure ContactData where
  id : Option String
  name : Option String
  isBusiness : Option Bool
  profilePictureUrl : Option String
  deriving Repr, DecidableEq

/-- The `WhatsAppContact` row (models.py lines 235-268), keyed externally by
`(whatsapp_instance, phone_number)`. -/
structure ContactRow where
  name : String
  is_business : Bool
  profile_picture_url : String
  is_blocked : Bool
  is_active : Bool
  deriving Repr, DecidableEq

/-- A freshly created `WhatsAppContact` row before `defaults` are applied. -/
def freshContactRow : ContactRow :=
  { name := "", is_business := false, profile_picture_url := "", is_blocked := false, is_active := true }

/-- The `defaults` dict of the contact `update_or_create` (services.py lines
562-570). -/
def applyContactDefaults (c : ContactData) (r : ContactRow) : ContactRow :=
  { r with
      name := c.name.getD ""
      is_business := c.isBusiness.getD false
      profile_picture_url := c.profilePictureUrl.getD "" }

/-- The value of `WhatsAppAPIService.get_contacts` as tested by `sync_contacts`:
a Python list of contact dicts, or a non-list error payload.  (On a list, the
membership test in the source compares the string `error`
against dict elements and never matches.) -/
inductive ContactsResponse where
  | list (contacts : List ContactData)
  | errorPayload (msg : String)
  deriving Repr, DecidableEq

/-- `WhatsAppInstanceManager.sync_contacts` (services.py lines 551-575). -/
def sync_contacts (resp : ContactsResponse) (db : String → Option ContactRow) :
    Nat × (String → Option ContactRow) :=
  match resp with
  | .list cs =>
    cs.foldl
      (fun acc c =>
        let key := pyReplace (c.id.getD "") "@c.us" ""
        (acc.1 + 1,
          fun k => if k = key then some (applyContactDefaults c ((acc.2 key).getD freshContactRow)) else acc.2 k))
      (0, db)
  | .errorPayload _ => (0, db)

/-- Chain of keyed modifications applied to the value stored at one map key:
each step replaces the current `Option`-value with `some (f value)`. -/
def chainMod {α : Type} : List (Option α → α) → Option α → Option α
  | [], x => x
  | f :: fs, x => chainMod fs (some (f x))

/-- The modifications `sync_groups` applies to the group-table entry at key `j`,
in processing order. -/
def groupModsAt (now : Nat) : List GroupData → String → List (Option GroupRow → GroupRow)
  | [], _ => []
  | g :: gs, j =>
    if j = g.JID.getD "" then groupMod now g :: groupModsAt now gs j
    else groupModsAt now gs j

/-- The modifications the participant loop of one group entry applies to the
participant-table entry at key `j`. -/
def partModsInner (gid : String) : List ParticipantData → String × String →
    List (Option ParticipantRow → ParticipantRow)
  | [], _ => []
  | p :: ps, j =>
    if p.JID.getD "" = "" then partModsInner gid ps j
    else if j = (gid, p.JID.getD "") then
      (fun _ => participantRowOf p (p.JID.getD "")) :: partModsInner gid ps j
    else partModsInner gid ps j

/-- The modifications `sync_groups` applies to the participant-table entry at
key `j`, in processing order. -/
def partModsAt : List GroupData → String × String → List (Option ParticipantRow → ParticipantRow)
  | [], _ => []
  | g :: gs, j => partModsInner (g.JID.getD "") (g.Participants.getD []) j ++ partModsAt gs j

/-- The part of a group-table value that the group upsert preserves (everything
outside the `defaults` dict: `invite_link` and `is_active`, with model defaults
when the row does not exist yet). -/
def groupPreserved (x : Option GroupRow) : String × Bool :=
  ((x.getD freshGroupRow).invite_link, (x.getD freshGroupRow).is_active)

/-- Concrete settings used in witnesses. -/
def demoSettings : Settings :=
  { DEFAULT_GATEWAY_URL := "https://gateway.example", DEFAULT_UAZAPI_API_KEY := "admin-key" }

/-- Concrete instance row used in witnesses. -/
def demoInstance : InstanceRow :=
  { name := "Main"
    system_name := "tsuru_1_abcd1234"
    whatsapp_number := some "5511999999999"
    gateway_url := "https://gateway.example"
    api_key := "tok-1"
    status := "disconnected"
    phone_number := some ""
    connection_method := "qr_code"
    qr_code := "" }

/-- Empty mirror tables used in witnesses. -/
def emptyMirrorDB : MirrorDB :=
  { groups := fun _ => none, participants := fun _ => none }

/-- Concrete status payload: remote `connecting` with a QR code present. -/
def demoStatusConnectingQR : InstanceStatusData :=
  { status := some "connecting", qrcode := some "QRDATA", owner := none, profilePictureUrl := none }

/-- Concrete status payload: remote `open`, no QR code. -/
def demoStatusOpen : InstanceStatusData :=
  { status := some "open", qrcode := none, owner := some "5511999999999",
    profilePictureUrl := some "https://pic.example/p.jpg" }

/-- Concrete participant entry: the group owner, flagged super-admin only. -/
def demoParticipantOwner : ParticipantData :=
  { JID := some "5511888888888@s.whatsapp.net", LID := none, DisplayName := some "Owner",
    IsAdmin := some false, IsSuperAdmin := some true, Error := none, PhoneNumber := none }

/-- Concrete group entry: owner not separately marked admin, malformed
`GroupCreated`. -/
def demoGroupBadDate : GroupData :=
  { JID := some "123@g.us", Name := some "Demo", Topic := none,
    OwnerJID := some "5511888888888@s.whatsapp.net", OwnerIsAdmin := some false,
    Participants := some [demoParticipantOwner],
    IsLocked := none, IsAnnounce := none, IsEphemeral := none, DisappearingTimer := none,
    IsJoinApprovalRequired := none, GroupCreated := some "not-a-date",
    CreatorCountryCode := none, AnnounceVersionID := none, ParticipantVersionID := none,
    MemberAddMode := none }

/-- The `Plan` row fields read by the quota check (subscriptions/models.py lines
47-51). -/
structure Plan where
  max_whatsapp_instances : Nat
  deriving Repr, DecidableEq

/-- The `Subscription` row fields read by the quota check. -/
structure Subscription where
  status : String
  plan : Plan
  deriving Repr, DecidableEq

/-- `Subscription.is_active` (subscriptions/models.py lines 177-180). -/
def Subscription.is_active (s : Subscription) : Bool :=
  s.status == "active" || s.status == "trialing"

/-- The `max_instances` computation of `whatsapp_connect_view` (views.py lines
1078-1083): default 1, overridden by the plan limit when the current
subscription exists and is active. -/
def max_instances_for (sub : Option Subscription) : Nat :=
  match sub with
  | some s => if s.is_active then s.plan.max_whatsapp_instances else 1
  | none => 1

/-- Validated data of `WhatsAppInstanceForm` (views.py lines 1040-1067): the
only caller-editable fields. -/
structure FormData where
  name : String
  whatsapp_number : Option String
  connection_method : String
  deriving Repr, DecidableEq

/-- Concrete form data used in witnesses. -/
def demoForm : FormData :=
  { name := "Main", whatsapp_number := some "5511999999999", connection_method := "qr_code" }

/-- The update branch of `whatsapp_connect_view` (views.py lines 1110-1111):
`setattr` of each cleaned form field onto the existing instance. -/
def applyForm (f : FormData) (inst : InstanceRow) : InstanceRow :=
  { inst with
      name := f.name
      whatsapp_number := f.whatsapp_number
      connection_method := f.connection_method }

/-- `form.save(commit=False)` on a fresh instance: form fields from the caller,
every other field at its model default (models.py). -/
def newInstanceFromForm (f : FormData) : InstanceRow :=
  { name := f.name
    system_name := ""
    whatsapp_number := f.whatsapp_number
    gateway_url := ""
    api_key := ""
    status := "disconnected"
    phone_number := some ""
    connection_method := f.connection_method
    qr_code := "" }

/-- Outcome of the `create_instance` action of `whatsapp_connect_view`. -/
inductive CreateOutcome where
  | rejectedQuota
  | updatedExisting
  | createdNew
  | invalidForm
  deriving Repr, DecidableEq

/-- Replace the first element of a list (the row returned by
`instances.first()`), keeping the rest. -/
def replaceFirst : List InstanceRow → InstanceRow → List InstanceRow
  | [], _ => []
  | _ :: t, x => x :: t

/-- The `action == "create_instance"` path of `whatsapp_connect_view` (views.py
lines 1075-1136).  `instances` is the instance list of the user (`instances.first()`
is its head), `newInstanceParam` is `request.GET.get("instance") == "new"`,
`apiSuccess`/`apiToken` model the `create_instance` gateway call and the token
of its response.  Quota rejection happens only when `can_create_more` is false
AND no existing instance is selected for editing; with an existing instance
selected the request updates it in place. -/
def whatsapp_connect_create (cfg : Settings) (freshSystemName : String)
    (sub : Option Subscription) (newInstanceParam : Bool)
    (formValid : Bool) (form : FormData) (instances : List InstanceRow)
    (apiSuccess : Bool) (apiToken : String) : CreateOutcome × List InstanceRow :=
  let current_instances_count := instances.length
  let max_instances := max_instances_for sub
  let can_create_more : Bool := current_instances_count < max_instances
  let inst? : Option InstanceRow :=
    if ¬instances.isEmpty ∧ ¬newInstanceParam then instances.head? else none
  let instance_exists := inst?.isSome
  if !can_create_more && !instance_exists then
    (.rejectedQuota, instances)
  else if formValid then
    match inst? with
    | some inst0 =>
      let inst1 := instance_save cfg freshSystemName (applyForm form inst0)
      let inst2 :=
        if apiSuccess then instance_save cfg freshSystemName { inst1 with api_key := apiToken } else inst1
      (.updatedExisting, replaceFirst instances inst2)
    | none =>
      let inst1 := instance_save cfg freshSystemName (newInstanceFromForm form)
      let inst2 :=
        if apiSuccess then instance_save cfg freshSystemName { inst1 with api_key := apiToken } else inst1
      (.createdNew, instances ++ [inst2])
  else
    (.invalidForm, instances)

/-- `WhatsAppInstanceViewSet.perform_create` (views.py lines 59-66): save the
new row unconditionally (no quota check), then delete it again if the gateway
`create_instance` call fails. -/
def perform_create (cfg : Settings) (freshSystemName : String)
    (instances : List InstanceRow) (form : FormData) (apiSuccess : Bool) : List InstanceRow :=
  let inst := instance_save cfg freshSystemName (newInstanceFromForm form)
  if apiSuccess then instances ++ [inst] else instances

/-- Positional parameters `WhatsAppAPIService.connect_instance` accepts after the
bound `cls` (services.py line 46: only `instance`). -/
def connect_instance_param_count : Nat := 1

/-- Positional arguments passed at `WhatsAppInstanceViewSet.connect`
(views.py line 76: `connect_instance(instance, phone)`). -/
def viewset_connect_arg_count : Nat := 2

/-- Positional arguments passed at `ConnectInstanceView.post`
(views.py line 188: `connect_instance(instance, phone)`). -/
def connect_instance_view_post_arg_count : Nat := 2

/-- Python positional-argument binding for a signature with no defaults and no
varargs: binding succeeds exactly when the argument count matches; otherwise the
call raises `TypeError` before the body runs. -/
def call_connect_instance {α : Type} (argCount : Nat) (resp : Option (HttpResp α)) :
    Except String (Bool × ConnectPayload α) :=
  if argCount = connect_instance_param_count then
    .ok (connect_instance resp)
  else
    .error "TypeError"

/-- Observable outcome of a REST connect endpoint. -/
inductive ViewResponse (α : Type) where
  | connectionInitiated (result : ConnectPayload α)
  | badRequestError (result : ConnectPayload α)
  | invalidInput
  | pyException (msg : String)
  deriving Repr, DecidableEq

/-- `WhatsAppInstanceViewSet.connect` (views.py lines 68-85): validate the
serializer, call `connect_instance(instance, phone)`, and answer 200 on success
or 400 otherwise.  An uncaught exception from the call propagates.  (The
success branch would also set the instance status to `connecting` before
responding.) -/
def viewset_connect {α : Type} (serializerValid : Bool) (resp : Option (HttpResp α)) :
    ViewResponse α :=
  if serializerValid then
    match call_connect_instance viewset_connect_arg_count resp with
    | .error e => .pyException e
    | .ok (true, result) => .connectionInitiated result
    | .ok (false, result) => .badRequestError result
  else
    .invalidInput

/-- `ConnectInstanceView.post` (views.py lines 182-197): same body as the
viewset action, with its own call site. -/
def connect_instance_view_post {α : Type} (serializerValid : Bool) (resp : Option (HttpResp α)) :
    ViewResponse α :=
  if serializerValid then
    match call_connect_instance connect_instance_view_post_arg_count resp with
    | .error e => .pyException e
    | .ok (true, result) => .connectionInitiated result
    | .ok (false, result) => .badRequestError result
  else
    .invalidInput

/-! ### Helper lemmas for the `sync_groups` idempotence proof -/

theorem chainMod_append {α : Type} (fs gs : List (Option α → α)) (x : Option α) :
    chainMod (fs ++ gs) x = chainMod gs (chainMod fs x) := by
  induction fs generalizing x with
  | nil => rfl
  | cons f fs ih => simp [chainMod, ih]

theorem chainMod_pres {α β : Type} (π : Option α → β) (fs : List (Option α → α)) (x : Option α)
    (h : ∀ f ∈ fs, ∀ y, π (some (f y)) = π y) :
    π (chainMod fs x) = π x := by
  induction fs generalizing x with
  | nil => rfl
  | cons f fs ih =>
    rw [chainMod, ih _ fun g hg y => h g (List.mem_cons_of_mem _ hg) y]
    exact h f (List.mem_cons_self _ _) x

theorem chainMod_idem {α β : Type} (π : Option α → β) (fs : List (Option α → α)) (x : Option α)
    (hpres : ∀ f ∈ fs, ∀ y, π (some (f y)) = π y)
    (hdet : ∀ f ∈ fs, ∀ y z, π y = π z → f y = f z) :
    chainMod fs (chainMod fs x) = chainMod fs x := by
  cases fs with
  | nil => rfl
  | cons f fs =>
    have hx : π (chainMod (f :: fs) x) = π x := chainMod_pres π _ x hpres
    have hf : f (chainMod (f :: fs) x) = f x := hdet f (List.mem_cons_self _ _) _ _ hx
    calc chainMod (f :: fs) (chainMod (f :: fs) x)
        = chainMod fs (some (f (chainMod (f :: fs) x))) := rfl
      _ = chainMod fs (some (f x)) := by rw [hf]
      _ = chainMod (f :: fs) x := rfl

theorem sync_groups_list_eq (now : Nat) (gs : List GroupData) (db : MirrorDB) :
    sync_groups (.list gs) now db = (gs.length, gs.foldl (syncGroupEntry now) db) := by
  suffices h : ∀ (n : Nat) (db : MirrorDB),
      gs.foldl (fun acc g => (acc.1 + 1, syncGroupEntry now acc.2 g)) (n, db)
        = (n + gs.length, gs.foldl (syncGroupEntry now) db) by
    simpa [sync_groups] using h 0 db
  induction gs with
  | nil => intro n db; rfl
  | cons g gs ih =>
    intro n db
    rw [List.foldl_cons, List.foldl_cons, ih]
    congr 1
    simp only [List.length_cons]
    omega

theorem foldl_syncGroupEntry_groups (now : Nat) (gs : List GroupData) :
    ∀ (db : MirrorDB) (j : String),
      (gs.foldl (syncGroupEntry now) db).groups j = chainMod (groupModsAt now gs j) (db.groups j) := by
  induction gs with
  | nil => intro db j; rfl
  | cons g gs ih =>
    intro db j
    rw [List.foldl_cons, ih]
    by_cases hj : j = g.JID.getD ""
    · rw [groupModsAt, if_pos hj, chainMod]
      congr 1
      simp [syncGroupEntry, hj]
    · rw [groupModsAt, if_neg hj]
      congr 1
      simp [syncGroupEntry, hj]

theorem foldl_syncParticipantWrite (gid : String) (ps : List ParticipantData) :
    ∀ (pm : String × String → Option ParticipantRow) (j : String × String),
      (ps.foldl (syncParticipantWrite gid) pm) j = chainMod (partModsInner gid ps j) (pm j) := by
  induction ps with
  | nil => intro pm j; rfl
  | cons p ps ih =>
    intro pm j
    rw [List.foldl_cons, ih]
    by_cases h0 : p.JID.getD "" = ""
    · rw [partModsInner, if_pos h0]
      congr 1
      simp [syncParticipantWrite, h0]
    · by_cases hj : j = (gid, p.JID.getD "")
      · rw [partModsInner, if_neg h0, if_pos hj, chainMod]
        congr 1
        simp [syncParticipantWrite, h0, hj]
      · rw [partModsInner, if_neg h0, if_neg hj]
        congr 1
        simp [syncParticipantWrite, h0, hj]

theorem foldl_syncGroupEntry_participants (now : Nat) (gs : List GroupData) :
    ∀ (db : MirrorDB) (j : String × String),
      (gs.foldl (syncGroupEntry now) db).participants j
        = chainMod (partModsAt gs j) (db.participants j) := by
  induction gs with
  | nil => intro db j; rfl
  | cons g gs ih =>
    intro db j
    rw [List.foldl_cons, ih, partModsAt, chainMod_append]
    congr 1
    exact foldl_syncParticipantWrite _ _ _ _

theorem groupModsAt_mem (now : Nat) (gs : List GroupData) (j : String) :
    ∀ f ∈ groupModsAt now gs j, ∃ g, f = groupMod now g := by
  induction gs with
  | nil => intro f hf; simp [groupModsAt] at hf
  | cons g gs ih =>
    intro f hf
    by_cases hj : j = g.JID.getD ""
    · rw [groupModsAt, if_pos hj] at hf
      rcases List.mem_cons.mp hf with hf | hf
      · exact ⟨g, hf⟩
      · exact ih f hf
    · rw [groupModsAt, if_neg hj] at hf
      exact ih f hf

theorem partModsInner_mem (gid : String) (ps : List ParticipantData) (j : String × String) :
    ∀ f ∈ partModsInner gid ps j, ∃ r, f = fun _ => r := by
  induction ps with
  | nil => intro f hf; simp [partModsInner] at hf
  | cons p ps ih =>
    intro f hf
    by_cases h0 : p.JID.getD "" = ""
    · rw [partModsInner, if_pos h0] at hf
      exact ih f hf
    · by_cases hj : j = (gid, p.JID.getD "")
      · rw [partModsInner, if_neg h0, if_pos hj] at hf
        rcases List.mem_cons.mp hf with hf | hf
        · exact ⟨participantRowOf p (p.JID.getD ""), hf⟩
        · exact ih f hf
      · rw [partModsInner, if_neg h0, if_neg hj] at hf
        exact ih f hf

theorem partModsAt_mem (gs : List GroupData) (j : String × String) :
    ∀ f ∈ partModsAt gs j, ∃ r, f = fun _ => r := by
  induction gs with
  | nil => intro f hf; simp [partModsAt] at hf
  | cons g gs ih =>
    intro f hf
    rw [partModsAt] at hf
    rcases List.mem_append.mp hf with hf | hf
    · exact partModsInner_mem _ _ _ f hf
    · exact ih f hf

theorem groupMod_preserves (now : Nat) (g : GroupData) (x : Option GroupRow) :
    groupPreserved (some (groupMod now g x)) = groupPreserved x := rfl

theorem groupMod_determined (now : Nat) (g : GroupData) (x y : Option GroupRow)
    (h : groupPreserved x = groupPreserved y) :
    groupMod now g x = groupMod now g y := by
  have h1 : (x.getD freshGroupRow).invite_link = (y.getD freshGroupRow).invite_link :=
    congrArg Prod.fst h
  have h2 : (x.getD freshGroupRow).is_active = (y.getD freshGroupRow).is_active :=
    congrArg Prod.snd h
  simp [groupMod, applyGroupDefaults, h1, h2]

/-! ### Claim theorems -/

/-- C1: for every `sync_instance_status` call whose gateway response carries an
`instance` object with status `connecting` and a non-empty `qrcode`, when the
local status is not already `connected` the instance ends in status `qr_code`
(not `connecting`) with the QR payload stored: QR presence overrides the
generic status mapping. -/
theorem sync_instance_status_qr_precedence (cfg : Settings) (freshName : String)
    (inst : InstanceRow) (d : InstanceStatusData) (q : String)
    (hlocal : inst.status ≠ "connected") (hstatus : d.status = some "connecting")
    (hqr : d.qrcode = some q) (hq : q ≠ "") :
    (sync_instance_status cfg freshName true (some d) inst).2.status = "qr_code" ∧
    (sync_instance_status cfg freshName true (some d) inst).2.qr_code = q := by
  refine ⟨?_, ?_⟩ <;>
    simp [sync_instance_status, instance_save, hstatus, hqr, apply_ite]

/-- Witness for C1 at a concrete instance and status payload. -/
theorem sync_instance_status_qr_precedence_witness :
    demoInstance.status ≠ "connected" ∧ ("QRDATA" : String) ≠ "" ∧
    (sync_instance_status demoSettings "fresh" true (some demoStatusConnectingQR) demoInstance).2.status
      = "qr_code" ∧
    (sync_instance_status demoSettings "fresh" true (some demoStatusConnectingQR) demoInstance).2.qr_code
      = "QRDATA" := by
  have h := sync_instance_status_qr_precedence demoSettings "fresh" demoInstance
    demoStatusConnectingQR "QRDATA" (by decide) rfl rfl (by decide)
  exact ⟨by decide, by decide, h.1, h.2⟩

/-- C2: `connect_instance` treats HTTP 409 identically to HTTP 200 (success
with the parsed body), while any other non-200 status yields failure with the
structured error payload. -/
theorem connect_instance_409_as_success {α : Type} (code : Nat) (text : String) (d : α) :
    (code = 409 →
      connect_instance (some (⟨code, text, d⟩ : HttpResp α))
        = connect_instance (some (⟨200, text, d⟩ : HttpResp α)) ∧
      connect_instance (some (⟨code, text, d⟩ : HttpResp α)) = (true, .data d)) ∧
    (code ≠ 200 → code ≠ 409 →
      connect_instance (some (⟨code, text, d⟩ : HttpResp α))
        = (false, .error ("Error " ++ toString code ++ ": " ++ text))) := by
  constructor
  · rintro rfl
    exact ⟨by simp [connect_instance], by simp [connect_instance]⟩
  · intro h200 h409
    simp [connect_instance, h200, h409]

/-- Witness for C2 at concrete responses. -/
theorem connect_instance_409_as_success_witness :
    (connect_instance (some (⟨409, "conflict", 7⟩ : HttpResp Nat))
        = connect_instance (some (⟨200, "conflict", 7⟩ : HttpResp Nat)) ∧
      connect_instance (some (⟨409, "conflict", 7⟩ : HttpResp Nat)) = (true, .data 7)) ∧
    connect_instance (some (⟨500, "boom", 7⟩ : HttpResp Nat))
      = (false, .error ("Error " ++ toString 500 ++ ": " ++ "boom")) :=
  ⟨(connect_instance_409_as_success 409 "conflict" 7).1 rfl,
   (connect_instance_409_as_success 500 "boom" 7).2 (by decide) (by decide)⟩

/-- C3 counterexample: a successful status response whose `instance` object has
status `connecting` together with a `qrcode` maps the local status to
`qr_code`, not to `connecting` as the claimed mapping requires. -/
theorem sync_instance_status_mapping_counterexample :
    demoStatusConnectingQR.status = some "connecting" ∧
    (sync_instance_status demoSettings "fresh" true (some demoStatusConnectingQR) demoInstance).2.status
      = "qr_code" ∧
    ("qr_code" : String) ≠ "connecting" :=
  ⟨rfl, by decide, by decide⟩

/-- C3 (amended): in the absence of a `qrcode` key in the response, remote
`open` maps to local `connected` capturing the WhatsApp number from `owner`;
remote `connected` likewise maps to `connected` capturing `owner`, except that
when the local status is already `connected` the instance is returned
unchanged; remote `connecting` maps to `connecting`; any other remote status
maps to `disconnected`. -/
theorem sync_instance_status_mapping (cfg : Settings) (freshName : String)
    (inst : InstanceRow) (d : InstanceStatusData) (hq : d.qrcode = none) :
    (d.status = some "open" →
      (sync_instance_status cfg freshName true (some d) inst).2.status = "connected" ∧
      (sync_instance_status cfg freshName true (some d) inst).2.whatsapp_number = d.owner) ∧
    (d.status = some "connected" →
      (inst.status = "connected" →
        (sync_instance_status cfg freshName true (some d) inst).2 = inst) ∧
      (inst.status ≠ "connected" →
        (sync_instance_status cfg freshName true (some d) inst).2.status = "connected" ∧
        (sync_instance_status cfg freshName true (some d) inst).2.whatsapp_number = d.owner)) ∧
    (d.status = some "connecting" →
      (sync_instance_status cfg freshName true (some d) inst).2.status = "connecting") ∧
    (d.status ≠ some "open" → d.status ≠ some "connected" → d.status ≠ some "connecting" →
      (sync_instance_status cfg freshName true (some d) inst).2.status = "disconnected") := by
  refine ⟨fun hopen => ⟨?_, ?_⟩,
          fun hconn => ⟨fun hloc => ?_, fun hloc => ⟨?_, ?_⟩⟩,
          fun hing => ?_,
          fun h1 h2 h3 => ?_⟩ <;>
    simp_all [sync_instance_status, instance_save, apply_ite]

/-- Witness for C3 (amended) at a concrete `open` status payload. -/
theorem sync_instance_status_mapping_witness :
    demoStatusOpen.qrcode = none ∧
    (sync_instance_status demoSettings "fresh" true (some demoStatusOpen) demoInstance).2.status
      = "connected" ∧
    (sync_instance_status demoSettings "fresh" true (some demoStatusOpen) demoInstance).2.whatsapp_number
      = demoStatusOpen.owner := by
  have h := (sync_instance_status_mapping demoSettings "fresh" demoInstance demoStatusOpen rfl).1 rfl
  exact ⟨rfl, h.1, h.2⟩

/-- C4: `sync_groups` is idempotent: replaying the identical upstream group-list
payload (the clock tick being part of the call environment) yields the same
processed count and leaves the group and participant tables — maps keyed by the
unique keys `(instance, group_id)` and `(group, jid)` — unchanged row-for-row
and field-for-field, creating no new rows. -/
theorem sync_groups_idempotent (gs : List GroupData) (now : Nat) (db : MirrorDB) :
    sync_groups (.list gs) now (sync_groups (.list gs) now db).2
      = sync_groups (.list gs) now db := by
  simp only [sync_groups_list_eq]
  have hdb : gs.foldl (syncGroupEntry now) (gs.foldl (syncGroupEntry now) db)
      = gs.foldl (syncGroupEntry now) db := by
    apply MirrorDB.ext
    · funext j
      rw [foldl_syncGroupEntry_groups, foldl_syncGroupEntry_groups]
      refine chainMod_idem groupPreserved _ _ ?_ ?_
      · intro f hf y
        obtain ⟨g, rfl⟩ := groupModsAt_mem now gs j f hf
        exact groupMod_preserves now g y
      · intro f hf y z h
        obtain ⟨g, rfl⟩ := groupModsAt_mem now gs j f hf
        exact groupMod_determined now g y z h
    · funext j
      rw [foldl_syncGroupEntry_participants, foldl_syncGroupEntry_participants]
      refine chainMod_idem (fun _ => ()) _ _ ?_ ?_
      · intro f hf y
        rfl
      · intro f hf y z h
        obtain ⟨r, rfl⟩ := partModsAt_mem gs j f hf
        rfl
  rw [hdb]

/-- C5: for every group entry processed by `sync_groups` (its per-entry step
`syncGroupEntry`), the stored `is_admin` flag is true iff the explicit
`OwnerIsAdmin` flag is set, or some participant entry whose `JID` equals the
(defaulted) `OwnerJID` of the group is flagged `IsAdmin` or `IsSuperAdmin`. -/
theorem sync_groups_is_admin_derivation (now : Nat) (db : MirrorDB) (g : GroupData) :
    ∃ r : GroupRow,
      (syncGroupEntry now db g).groups (g.JID.getD "") = some r ∧
      (r.is_admin = true ↔
        g.OwnerIsAdmin.getD false = true ∨
        ∃ p ∈ g.Participants.getD [],
          p.JID = some (g.OwnerJID.getD "") ∧
          (p.IsAdmin.getD false = true ∨ p.IsSuperAdmin.getD false = true)) := by
  refine ⟨groupMod now g (db.groups (g.JID.getD "")), by simp [syncGroupEntry], ?_⟩
  show derive_is_admin g = true ↔ _
  by_cases hb : g.OwnerIsAdmin.getD false = true
  · simp [derive_is_admin, hb]
  · simp [derive_is_admin, hb]

/-- C6: a non-list gateway payload (an error dict) makes `sync_groups` and
`sync_contacts` return 0 processed without touching any mirror row. -/
theorem sync_error_payload_returns_zero (msg cmsg : String) (now : Nat) (db : MirrorDB)
    (cdb : String → Option ContactRow) :
    sync_groups (.errorPayload msg) now db = (0, db) ∧
    sync_contacts (.errorPayload cmsg) cdb = (0, cdb) :=
  ⟨rfl, rfl⟩

/-- C7: a group entry whose `GroupCreated` is absent or fails to parse is still
upserted, with `group_created` stored as null; the malformed timestamp never
aborts the sync. -/
theorem sync_groups_malformed_group_created (now : Nat) (db : MirrorDB) (g : GroupData)
    (h : g.GroupCreated = none ∨
         ∃ s, g.GroupCreated = some s ∧ fromisoformat (pyReplace s "Z" "+00:00") = none) :
    ∃ r : GroupRow,
      (syncGroupEntry now db g).groups (g.JID.getD "") = some r ∧ r.group_created = none := by
  refine ⟨groupMod now g (db.groups (g.JID.getD "")), by simp [syncGroupEntry], ?_⟩
  show group_created_of g = none
  rcases h with h | ⟨s, hs, hp⟩
  · simp [group_created_of, h]
  · rw [group_created_of, hs]
    by_cases h0 : s = ""
    · simp [h0]
    · simp [h0, hp]

/-- Witness for C7 at a concrete group entry with `GroupCreated="not-a-date"`. -/
theorem sync_groups_malformed_group_created_witness :
    ∃ r : GroupRow,
      (syncGroupEntry 5 emptyMirrorDB demoGroupBadDate).groups (demoGroupBadDate.JID.getD "")
        = some r ∧ r.group_created = none :=
  sync_groups_malformed_group_created 5 emptyMirrorDB demoGroupBadDate
    (Or.inr ⟨"not-a-date", rfl, by decide⟩)

/-- C8 counterexample: an account already holding one instance — the
plan-derived maximum for an account with no subscription — still gets a new row
created by the REST viewset `perform_create`, which applies no quota check. -/
theorem perform_create_quota_counterexample :
    max_instances_for none ≤ ([demoInstance] : List InstanceRow).length ∧
    (perform_create demoSettings "tsuru_sys" [demoInstance] demoForm true).length
      = ([demoInstance] : List InstanceRow).length + 1 :=
  ⟨by decide, by decide⟩

/-- C8 (amended): in `whatsapp_connect_view`, an instance-creation request from
an account at or above its plan-derived maximum (default 1 with no active
subscription) is rejected with no state change whenever no existing instance is
selected for editing (a fresh-instance request, or no instance exists); when an
existing instance is selected, the request updates it instead, and the REST
`perform_create` endpoint enforces no quota. -/
theorem whatsapp_connect_quota_rejection (cfg : Settings) (freshName : String)
    (sub : Option Subscription) (newInstanceParam : Bool) (formValid : Bool)
    (form : FormData) (instances : List InstanceRow) (apiSuccess : Bool) (apiToken : String)
    (hquota : max_instances_for sub ≤ instances.length)
    (hsel : newInstanceParam = true ∨ instances = []) :
    whatsapp_connect_create cfg freshName sub newInstanceParam formValid form instances
      apiSuccess apiToken = (.rejectedQuota, instances) := by
  have hlt : ¬instances.length < max_instances_for sub := Nat.not_lt.mpr hquota
  rcases hsel with hsel | hsel
  · subst hsel
    simp [whatsapp_connect_create, hlt]
  · subst hsel
    have h0 : max_instances_for sub = 0 := Nat.le_zero.mp hquota
    simp [whatsapp_connect_create, h0]

/-- Witness for C8 (amended): one existing instance, no subscription, a
fresh-instance creation request. -/
theorem whatsapp_connect_quota_rejection_witness :
    max_instances_for none ≤ ([demoInstance] : List InstanceRow).length ∧
    whatsapp_connect_create demoSettings "tsuru_sys" none true true demoForm [demoInstance]
      true "tok" = (.rejectedQuota, [demoInstance]) :=
  ⟨by decide,
   whatsapp_connect_quota_rejection demoSettings "tsuru_sys" none true true demoForm
     [demoInstance] true "tok" (by decide) (Or.inl rfl)⟩

/-- C9 counterexample: `WhatsAppInstance.save` does not overwrite `api_key`
from configuration (the overwrite is commented out in the source): a
caller-supplied key distinct from the configured one persists across save. -/
theorem instance_save_api_key_counterexample :
    (instance_save demoSettings "tsuru_sys" { demoInstance with api_key := "caller-key" }).api_key
      = "caller-key" ∧
    ("caller-key" : String) ≠ demoSettings.DEFAULT_UAZAPI_API_KEY :=
  ⟨by decide, by decide⟩

/-- C9 (amended): every save of a `WhatsAppInstance` overwrites `gateway_url`
from process-wide configuration, but leaves `api_key` exactly as the caller
set it. -/
theorem instance_save_config_overwrite (cfg : Settings) (freshName : String) (inst : InstanceRow) :
    (instance_save cfg freshName inst).gateway_url = cfg.DEFAULT_GATEWAY_URL ∧
    (instance_save cfg freshName inst).api_key = inst.api_key := by
  unfold instance_save
  refine ⟨rfl, ?_⟩
  by_cases h : inst.system_name = "" <;> simp [h]

/-- C10: both REST connect endpoints pass two positional arguments to
`connect_instance`, whose signature accepts only the instance, so with valid
input the call raises `TypeError` and neither endpoint can ever answer
success. -/
theorem connect_endpoints_arity_type_error {α : Type} (serializerValid : Bool)
    (resp : Option (HttpResp α)) :
    viewset_connect serializerValid resp
      = (if serializerValid then .pyException "TypeError" else .invalidInput) ∧
    connect_instance_view_post serializerValid resp
      = (if serializerValid then .pyException "TypeError" else .invalidInput) ∧
    (∀ result, viewset_connect serializerValid resp ≠ .connectionInitiated result) ∧
    (∀ result, connect_instance_view_post serializerValid resp ≠ .connectionInitiated result) := by
  cases serializerValid <;>
    simp [viewset_connect, connect_instance_view_post, call_connect_instance,
      viewset_connect_arg_count, connect_instance_view_post_arg_count,
      connect_instance_param_count]

/-- Witness for C10: with valid input (and any transport outcome), both connect
endpoints surface the `TypeError`. -/
theorem connect_endpoints_arity_type_error_witness :
    viewset_connect (α := Nat) true none = .pyException "TypeError" ∧
    connect_instance_view_post (α := Nat) true none = .pyException "TypeError" := by
  have h := connect_endpoints_arity_type_error (α := Nat) true none
  exact ⟨by simpa using h.1, by simpa using h.2.1⟩

end Tsuru
